import Mathlib

/-!
Verification development for the tankctl command-lifecycle and lighting-schedule
subsystem.

Shallow embedding conventions:
* Timestamps are `Nat` seconds on a single civil-timezone axis (the code keeps
  every timestamp in the fixed IST zone, so a single linear axis is faithful);
  a calendar day is `86400` seconds, `dayOf t = t / 86400` is the date and
  `t % 86400` the time of day.  `light_on` / `light_off` in `TankSettings` are
  times of day in seconds (the columns are non-nullable with defaults
  10:00 / 16:00).
* Database tables are Lean lists of rows; SQL `UPDATE` is `List.map` on the
  rows, `SELECT ... ORDER BY created_at ASC ... FIRST` is a fold computing the
  row of minimal `created_at`.
* Python exceptions (`raise ValueError`) are `Except String`; a `raise` happens
  before any ORM mutation in the embedded functions, which the `Except` shape
  records by returning no state at all on error.
* `send_discord_embed` is a fire-and-forget notification sink; calls to it are
  collected in an output list of `Notification` values.
* Command statuses are the exact strings used by the code, as an inductive
  type: `pending`, `in_progress`, `delivered`, `success`, `failed`.
-/

namespace TankCtl

/-- Retry policy of `app/services/command_service.py`: `MAX_RETRIES` read from
the environment with default 3. -/
def MAX_RETRIES : Nat := 3

/-- Retry policy of `app/services/command_service.py`: `BASE_BACKOFF_SECONDS`
read from the environment with default 60. -/
def BASE_BACKOFF_SECONDS : Nat := 60

/-- Seconds in one calendar day. -/
def secondsPerDay : Nat := 86400

/-- Calendar date of an absolute timestamp (the `.date()` of a datetime). -/
def dayOf (t : Nat) : Nat := t / secondsPerDay

/-- Time of day of an absolute timestamp (the `.time()` of a datetime). -/
def timeOfDay (t : Nat) : Nat := t % secondsPerDay

/-- The status values stored in `tank_commands.status`. -/
inductive CommandStatus where
  | pending
  | in_progress
  | delivered
  | success
  | failed
deriving DecidableEq, Repr

/-- `command_payload` JSONB object: `{command_type, parameters}`. -/
structure CommandPayload where
  command_type : String
  parameters : List (String × String) := []
deriving DecidableEq, Repr

/-- A row of the `tanks` table (the fields the command lifecycle reads). -/
structure Tank where
  tank_id : Nat
  tank_name : String
deriving DecidableEq, Repr

/-- A row of the `tank_commands` table. -/
structure TankCommand where
  command_id : Nat
  tank_id : Nat
  command_payload : CommandPayload
  status : CommandStatus
  retries : Nat
  next_retry_at : Nat
  created_at : Nat
  last_attempt_at : Option Nat := none
  completed_at : Option Nat := none
  result : Option String := none
deriving DecidableEq, Repr

/-- A row of the `tank_settings` table (1:1 with `tanks`).  `light_on` and
`light_off` are non-nullable `Time` columns, embedded as seconds of day. -/
structure TankSettings where
  tank_id : Nat
  light_on : Nat
  light_off : Nat
  is_schedule_enabled : Bool := true
  manual_override_state : Option String := none
  schedule_paused_until : Option Nat := none
  last_schedule_check_on : Option Nat := none
  last_schedule_check_off : Option Nat := none
deriving DecidableEq, Repr

/-- A row of the `tank_schedule_log` audit table. -/
structure ScheduleLogEntry where
  tank_id : Nat
  event_type : String
  trigger_source : String
deriving DecidableEq, Repr

/-- One `send_discord_embed(...)` call: its `status` and `tank_name`
arguments. -/
structure Notification where
  status : String
  tank_name : String
deriving DecidableEq, Repr

/-- The persisted store shared by the request path and the periodic tasks. -/
structure DB where
  tanks : List Tank
  commands : List TankCommand
  settings : List TankSettings
  schedule_log : List ScheduleLogEntry
deriving Repr

/-- `select(Tank).where(Tank.tank_id == tank_id)`. -/
def findTank (db : DB) (tank_id : Nat) : Option Tank :=
  db.tanks.find? (fun t => t.tank_id == tank_id)

/-- `select(TankSettings).where(TankSettings.tank_id == tank_id)`. -/
def findSettings (db : DB) (tank_id : Nat) : Option TankSettings :=
  db.settings.find? (fun s => s.tank_id == tank_id)

/-- `select(TankCommand).where(TankCommand.command_id == command_id)`. -/
def findCommand (db : DB) (command_id : Nat) : Option TankCommand :=
  db.commands.find? (fun c => c.command_id == command_id)

/-- Result of a successful `issue_command` call: the new store, the persisted
command, and the notifications sent along the way. -/
structure IssueResult where
  db : DB
  new_command : TankCommand
  notifs : List Notification
deriving Repr

/-- `issue_command(db, tank_id, command_type, parameters, source)` of
`app/services/command_service.py`.  `now` is `datetime.now(IST)` and `new_id`
the fresh UUID of the inserted row. -/
def issue_command (db : DB) (tank_id : Nat) (command_type : String)
    (parameters : List (String × String)) (source : String)
    (now : Nat) (new_id : Nat) : Except String IssueResult :=
  match findTank db tank_id with
  | none => .error "Tank not found"
  | some tank =>
    let command_payload : CommandPayload :=
      { command_type := command_type, parameters := parameters }
    let settingsRow := findSettings db tank_id
    let overrideApplies :=
      source == "manual" &&
        (command_type == "light_on" || command_type == "light_off") &&
        settingsRow.isSome
    let newOverride : Option String :=
      some (if command_type == "light_on" then "on" else "off")
    let newSettings :=
      if overrideApplies then
        db.settings.map (fun s =>
          if s.tank_id == tank_id then
            { s with manual_override_state := newOverride }
          else s)
      else db.settings
    let overrideNotifs : List Notification :=
      if overrideApplies then
        [{ status := if command_type == "light_on" then "manual_light_on"
                     else "manual_light_off",
           tank_name := tank.tank_name }]
      else []
    let new_command : TankCommand :=
      { command_id := new_id
        tank_id := tank_id
        command_payload := command_payload
        status := .pending
        retries := 0
        next_retry_at := now
        created_at := now }
    let newLog :=
      if source == "manual" || source == "scheduled" then
        db.schedule_log ++
          [{ tank_id := tank_id, event_type := command_type,
             trigger_source := source }]
      else db.schedule_log
    .ok { db := { db with
                  commands := db.commands ++ [new_command]
                  settings := newSettings
                  schedule_log := newLog }
          new_command := new_command
          notifs := overrideNotifs }

/-- Status filter of `get_pending_command_for_tank`:
`TankCommand.status.in_(["pending", "in_progress"])`. -/
def isPendingOrInProgress (c : TankCommand) : Bool :=
  c.status == .pending || c.status == .in_progress

/-- Accumulator step of the `ORDER BY created_at ASC` + `.first()` fold:
keep the row seen so far with the strictly smallest `created_at`. -/
def pickEarlier (acc : Option TankCommand) (c : TankCommand) :
    Option TankCommand :=
  match acc with
  | none => some c
  | some b => if c.created_at < b.created_at then some c else some b

/-- Fold computing the first row of minimal `created_at`
(`ORDER BY created_at ASC` + `.first()`). -/
def earliestByCreatedAt (rows : List TankCommand) : Option TankCommand :=
  rows.foldl pickEarlier none

/-- `get_pending_command_for_tank(db, tank_id)` of
`app/services/command_service.py`: the oldest command of the tank whose
status is `pending` or `in_progress`. -/
def get_pending_command_for_tank (db : DB) (tank_id : Nat) :
    Option TankCommand :=
  earliestByCreatedAt
    (db.commands.filter
      (fun c => c.tank_id == tank_id && isPendingOrInProgress c))

/-- Result of a successful `acknowledge_command` call. -/
structure AckResult where
  db : DB
  notifs : List Notification
deriving Repr

/-- The field updates `acknowledge_command` applies to the acknowledged row:
terminal status from the success flag, `retries` pinned to `MAX_RETRIES`,
`last_attempt_at` / `completed_at` stamped, result text set. -/
def ackUpdate (command : TankCommand) (success : Bool) (now : Nat) :
    TankCommand :=
  { command with
    status := if success then .success else .failed
    retries := MAX_RETRIES
    last_attempt_at := some now
    completed_at := some now
    result := some (if success then "Command executed successfully"
                    else "Command execution failed") }

/-- The `send_discord_embed(status="command_ack", ...)` call made at the end
of `acknowledge_command` when the tank row is found. -/
def ackNotifs (db : DB) (tank_id : Nat) : List Notification :=
  match findTank db tank_id with
  | some tank => [{ status := "command_ack", tank_name := tank.tank_name }]
  | none => []

/-- `acknowledge_command(db, tank_id, ack)` of
`app/services/command_service.py`.  `now` is `datetime.now(IST)`. -/
def acknowledge_command (db : DB) (tank_id : Nat) (command_id : Nat)
    (success : Bool) (now : Nat) : Except String AckResult :=
  match findCommand db command_id with
  | none => .error "Command not found."
  | some command =>
    if command.tank_id ≠ tank_id then
      .error "Command does not belong to this tank."
    else
      let newCommands :=
        db.commands.map (fun c =>
          if c.command_id == command_id then ackUpdate command success now
          else c)
      .ok { db := { db with commands := newCommands }
            notifs := ackNotifs db tank_id }

/-- Filter of the retry sweep's subquery:
status in `["pending", "in_progress"]` and `next_retry_at <= now`. -/
def retryEligible (now : Nat) (c : TankCommand) : Bool :=
  isPendingOrInProgress c && c.next_retry_at ≤ now

/-- The subquery of `retry_stale_commands`: per tank, the minimum
`created_at` over its retry-eligible commands (`func.min` + `group_by`). -/
def minCreatedForTank (db : DB) (now : Nat) (tank_id : Nat) : Option Nat :=
  (db.commands.filter
      (fun c => c.tank_id == tank_id && retryEligible now c)).foldl
    (fun acc c =>
      match acc with
      | none => some c.created_at
      | some m => some (min m c.created_at))
    none

/-- The join of `retry_stale_commands`: a row is head-of-line when its
`(tank_id, created_at)` matches the subquery's `(tank_id, min_created)` pair.
(The join does not re-apply the status filter.) -/
def isHeadOfLine (db : DB) (now : Nat) (c : TankCommand) : Bool :=
  match minCreatedForTank db now c.tank_id with
  | some m => c.created_at == m
  | none => false

/-- Per-command body of the retry sweep's loop: mark `failed` at
`retries >= MAX_RETRIES`, otherwise increment and back off exponentially,
setting status `delivered`. -/
def retrySweepUpdate (now : Nat) (c : TankCommand) : TankCommand :=
  if c.retries ≥ MAX_RETRIES then
    { c with
      status := .failed
      completed_at := some now
      result := some "Command failed after multiple retries" }
  else
    let r := c.retries + 1
    { c with
      retries := r
      next_retry_at := now + BASE_BACKOFF_SECONDS * 2 ^ (r - 1)
      status := .delivered }

/-- Notification emitted for one head-of-line command. -/
def retrySweepNotif (db : DB) (c : TankCommand) : Notification :=
  let tank_name := match findTank db c.tank_id with
                   | some tank => tank.tank_name
                   | none => "<unknown>"
  if c.retries ≥ MAX_RETRIES then
    { status := "retry_failed", tank_name := tank_name }
  else
    { status := "retry_scheduled", tank_name := tank_name }

/-- `retry_stale_commands(db)` of `app/services/command_service.py`;
`now` is `datetime.now(IST)` taken at the top of the function.  All
head-of-line rows are updated and the whole sweep commits at once. -/
def retry_stale_commands (db : DB) (now : Nat) : DB × List Notification :=
  let newCommands :=
    db.commands.map (fun c =>
      if isHeadOfLine db now c then retrySweepUpdate now c else c)
  let notifs :=
    (db.commands.filter (fun c => isHeadOfLine db now c)).map
      (retrySweepNotif db)
  ({ db with commands := newCommands }, notifs)

/-- The `inside_window()` helper of
`app/worker/schedule_executor.py::enforce_lighting_schedule`:
same-day window when `on_t < off_t`, otherwise the overnight shape. -/
def insideWindow (on_t off_t now_time : Nat) : Bool :=
  if on_t < off_t then on_t ≤ now_time && now_time < off_t
  else now_time ≥ on_t || now_time < off_t

/-- Truthiness test `marker and marker.date() == now.date()` used for the
daily idempotency markers. -/
def checkedToday (marker : Option Nat) (now : Nat) : Bool :=
  match marker with
  | some t => dayOf t == dayOf now
  | none => false

/-- Effect of one enforcement tick on one tank.  `issued` records the
`(command_type, source)` argument pairs of the `issue_command` calls the tick
makes — the executor calls `issue_command(db, tank.tank_id, cmd)` leaving
`source` at its default `"system"`. -/
structure TickResult where
  settings : TankSettings
  issued : List (String × String)
  log : List ScheduleLogEntry
  notifs : List Notification
deriving DecidableEq, Repr

/-- The per-tank body of
`app/worker/schedule_executor.py::enforce_lighting_schedule`, at current time
`now`.  The columns `light_on` / `light_off` are non-nullable, so the
"missing on/off times" sanity skip of the source has no counterpart here.
`ov` is read once before any clearing, exactly as the source reads it into a
local before overwriting `settings.manual_override_state`. -/
def enforce_lighting_schedule_for_tank (tank_name : String)
    (s : TankSettings) (now : Nat) : TickResult :=
  if !s.is_schedule_enabled then
    { settings := s, issued := [], log := [], notifs := [] }
  else
    let now_time := timeOfDay now
    let on_t := s.light_on
    let off_t := s.light_off
    let ov := s.manual_override_state
    let inside := insideWindow on_t off_t now_time
    let s1 := if ov.isSome then { s with manual_override_state := none } else s
    let clearLog : List ScheduleLogEntry :=
      if ov.isSome then
        [{ tank_id := s.tank_id, event_type := "override_cleared",
           trigger_source := "scheduled" }]
      else []
    let clearNotifs : List Notification :=
      if ov.isSome then
        [{ status := "override_cleared", tank_name := tank_name }]
      else []
    if inside then
      let already_on := checkedToday s.last_schedule_check_on now
      if ov != some "off" && !already_on then
        { settings :=
            { s1 with
              last_schedule_check_off := none
              last_schedule_check_on := some now }
          issued := [("light_on", "system")]
          log := clearLog ++
            [{ tank_id := s.tank_id, event_type := "light_on",
               trigger_source := "scheduled" }]
          notifs := clearNotifs ++
            [{ status := "light_on", tank_name := tank_name }] }
      else
        { settings := s1, issued := [], log := clearLog, notifs := clearNotifs }
    else
      let on_today := checkedToday s.last_schedule_check_on now
      let already_off := checkedToday s.last_schedule_check_off now
      if ov != some "on" && on_today && !already_off then
        { settings := { s1 with last_schedule_check_off := some now }
          issued := [("light_off", "system")]
          log := clearLog ++
            [{ tank_id := s.tank_id, event_type := "light_off",
               trigger_source := "scheduled" }]
          notifs := clearNotifs ++
            [{ status := "light_off", tank_name := tank_name }] }
      else
        { settings := s1, issued := [], log := clearLog, notifs := clearNotifs }

/-- Result of `manual_override_command`: the updated settings row, the
`(command_type, source)` pairs passed to `issue_command`, the appended log
rows and the notifications sent. -/
structure OverrideResult where
  settings : TankSettings
  issued : List (String × String)
  log : List ScheduleLogEntry
  notifs : List Notification
deriving DecidableEq, Repr

/-- `manual_override_command(db, payload)` of
`app/services/tank_settings_service.py` on the tank's settings row.  For a
command other than `"light_off"` / `"light_on"` the source crashes on an
unbound `next_edge`, embedded as `none`.  The `issue_command` call again
leaves `source` at its default `"system"` (so it neither sets
`manual_override_state` nor writes its own log row); the function then logs
with `trigger_source="manual"` and stores the pause marker itself. -/
def manual_override_command (tank_name : String) (s : TankSettings)
    (cmd : String) (now : Nat) : Option OverrideResult :=
  let today := dayOf now
  let on_dt := today * secondsPerDay + s.light_on
  let off_dt := today * secondsPerDay + s.light_off
  if cmd == "light_off" then
    let next_edge := if now < on_dt then on_dt else on_dt + secondsPerDay
    some
      { settings := { s with schedule_paused_until := some next_edge }
        issued := [("light_off", "system")]
        log := [{ tank_id := s.tank_id, event_type := "light_off",
                  trigger_source := "manual" }]
        notifs := [{ status := "manual_light_light_off",
                     tank_name := tank_name }] }
  else if cmd == "light_on" then
    let next_edge := if now < off_dt then off_dt else off_dt + secondsPerDay
    some
      { settings := { s with schedule_paused_until := some next_edge }
        issued := [("light_on", "system")]
        log := [{ tank_id := s.tank_id, event_type := "light_on",
                  trigger_source := "manual" }]
        notifs := [{ status := "manual_light_light_on",
                     tank_name := tank_name }] }
  else
    none

/-- Accumulated effect of a sequence of enforcement ticks on one tank. -/
structure DayRun where
  settings : TankSettings
  issued : List (String × String)
  log : List ScheduleLogEntry
deriving DecidableEq, Repr

/-- One step of the periodic task runner: run the tick at time `t` and
accumulate its issued commands and log rows. -/
def tickStep (tank_name : String) (acc : DayRun) (t : Nat) : DayRun :=
  let r := enforce_lighting_schedule_for_tank tank_name acc.settings t
  { settings := r.settings
    issued := acc.issued ++ r.issued
    log := acc.log ++ r.log }

/-- Run the enforcement tick at each time in `times` (in order). -/
def runTicks (tank_name : String) (s : TankSettings) (times : List Nat) :
    DayRun :=
  times.foldl (tickStep tank_name) { settings := s, issued := [], log := [] }

/-- The tick times of one full simulated day `d`, one tick per minute. -/
def minuteTicksOfDay (d : Nat) : List Nat :=
  (List.range 1440).map (fun m => d * secondsPerDay + 60 * m)

/-- The retry-counter range invariant of the command lifecycle (`retries` is
a `Nat`, so the lower bound `0 ≤ retries` is carried by the type). -/
def RetriesBounded (db : DB) : Prop :=
  ∀ c ∈ db.commands, c.retries ≤ MAX_RETRIES

instance : DecidablePred RetriesBounded := fun db =>
  inferInstanceAs (Decidable (∀ c ∈ db.commands, c.retries ≤ MAX_RETRIES))

/-! ### Concrete fixtures used by counterexamples, failing inputs and witnesses -/

/-- A freshly issued command: status `pending`, `retries = 0`,
`next_retry_at = created_at = 0` (immediately eligible). -/
def cmd0 : TankCommand :=
  { command_id := 10
    tank_id := 1
    command_payload := { command_type := "feed_now" }
    status := .pending
    retries := 0
    next_retry_at := 0
    created_at := 0 }

/-- A store with one tank and the single fresh command `cmd0`. -/
def dbInit : DB :=
  { tanks := [{ tank_id := 1, tank_name := "TestTank" }]
    commands := [cmd0]
    settings := []
    schedule_log := [] }

/-- `cmd0` after the retry sweep touched it once at time `t`. -/
def deliveredAt (t : Nat) : TankCommand :=
  { cmd0 with
    retries := 1
    next_retry_at := t + 60
    status := .delivered }

/-- `dbInit` after the retry sweep touched `cmd0` once at time `t`. -/
def dbDelivered (t : Nat) : DB :=
  { dbInit with commands := [deliveredAt t] }

/-- The sweeps-only trace: run the retry sweep at each time in `times`,
never acknowledging anything. -/
def sweepTrace (times : List Nat) : DB :=
  times.foldl (fun db t => (retry_stale_commands db t).1) dbInit

/-- A store whose only command for tank 1 is outstanding but in status
`delivered` (exactly the state the retry sweep leaves behind). -/
def db2 : DB :=
  { dbInit with commands := [deliveredAt 100] }

/-- Settings row with the default window 10:00–16:00, schedule enabled,
nothing fired yet. -/
def s0 : TankSettings :=
  { tank_id := 1, light_on := 36000, light_off := 57600 }

/-- Settings after a day-0 run fired ON at 10:00 and
`manual_override_command(light_off)` at 11:00 stored
`schedule_paused_until = day-1 10:00`. -/
def s5 : TankSettings :=
  { tank_id := 1
    light_on := 36000
    light_off := 57600
    last_schedule_check_on := some 36000
    schedule_paused_until := some (secondsPerDay + 36000) }

/-- First acknowledgment of `cmd0` (success) at time 100. -/
def firstAck : Except String AckResult :=
  acknowledge_command dbInit 1 10 true 100

/-- Re-acknowledgment of the same command with the same outcome at
time 200. -/
def secondAck : Except String AckResult :=
  match firstAck with
  | .ok r1 => acknowledge_command r1.db 1 10 true 200
  | .error e => .error e

/-! ## Helper lemmas about the `ORDER BY created_at ASC` fold -/

theorem pickEarlier_eq_some (acc : Option TankCommand) (x : TankCommand) :
    ∃ p, pickEarlier acc x = some p := by
  cases acc with
  | none => exact ⟨x, rfl⟩
  | some b =>
    by_cases hlt : x.created_at < b.created_at
    · exact ⟨x, by simp [pickEarlier, hlt]⟩
    · exact ⟨b, by simp [pickEarlier, hlt]⟩

theorem pickEarlier_cases (acc : Option TankCommand) (x c : TankCommand)
    (h : pickEarlier acc x = some c) : acc = some c ∨ c = x := by
  cases acc with
  | none =>
    simp only [pickEarlier, Option.some.injEq] at h
    exact Or.inr h.symm
  | some b =>
    by_cases hlt : x.created_at < b.created_at
    · simp only [pickEarlier, if_pos hlt, Option.some.injEq] at h
      exact Or.inr h.symm
    · simp only [pickEarlier, if_neg hlt, Option.some.injEq] at h
      exact Or.inl (by rw [h])

theorem pickEarlier_le_right (acc : Option TankCommand) (x p : TankCommand)
    (h : pickEarlier acc x = some p) : p.created_at ≤ x.created_at := by
  cases acc with
  | none =>
    simp only [pickEarlier, Option.some.injEq] at h
    subst h
    exact le_refl _
  | some b =>
    by_cases hlt : x.created_at < b.created_at
    · simp only [pickEarlier, if_pos hlt, Option.some.injEq] at h
      rw [← h]
    · simp only [pickEarlier, if_neg hlt, Option.some.injEq] at h
      rw [← h]; omega

theorem pickEarlier_le_acc (b : TankCommand) (x p : TankCommand)
    (h : pickEarlier (some b) x = some p) : p.created_at ≤ b.created_at := by
  by_cases hlt : x.created_at < b.created_at
  · simp only [pickEarlier, if_pos hlt, Option.some.injEq] at h
    rw [← h]; omega
  · simp only [pickEarlier, if_neg hlt, Option.some.injEq] at h
    rw [← h]

theorem foldl_pickEarlier_mem (rows : List TankCommand) :
    ∀ (acc : Option TankCommand) (c : TankCommand),
      rows.foldl pickEarlier acc = some c → acc = some c ∨ c ∈ rows := by
  induction rows with
  | nil => intro acc c h; exact Or.inl h
  | cons x xs ih =>
    intro acc c h
    simp only [List.foldl_cons] at h
    rcases ih (pickEarlier acc x) c h with h' | h'
    · rcases pickEarlier_cases acc x c h' with h'' | h''
      · exact Or.inl h''
      · exact Or.inr (h'' ▸ List.mem_cons_self x xs)
    · exact Or.inr (List.mem_cons_of_mem x h')

theorem foldl_pickEarlier_le (rows : List TankCommand) :
    ∀ (acc : Option TankCommand) (c : TankCommand),
      rows.foldl pickEarlier acc = some c →
      (∀ b, acc = some b → c.created_at ≤ b.created_at) ∧
      (∀ b ∈ rows, c.created_at ≤ b.created_at) := by
  induction rows with
  | nil =>
    intro acc c h
    refine ⟨fun b hb => ?_, fun b hb => absurd hb (List.not_mem_nil b)⟩
    rw [hb] at h
    injection h with h
    rw [h]
  | cons x xs ih =>
    intro acc c h
    simp only [List.foldl_cons] at h
    obtain ⟨p, hp⟩ := pickEarlier_eq_some acc x
    rw [hp] at h
    have H := ih (some p) c h
    have hcp : c.created_at ≤ p.created_at := H.1 p rfl
    refine ⟨fun b hb => ?_, fun b hb => ?_⟩
    · rw [hb] at hp
      exact le_trans hcp (pickEarlier_le_acc b x p hp)
    · rcases List.mem_cons.mp hb with h' | h'
      · rw [h']
        exact le_trans hcp (pickEarlier_le_right acc x p hp)
      · exact H.2 b h'

theorem foldl_pickEarlier_isSome (rows : List TankCommand) :
    ∀ b : TankCommand, (rows.foldl pickEarlier (some b)).isSome := by
  induction rows with
  | nil => intro b; rfl
  | cons x xs ih =>
    intro b
    simp only [List.foldl_cons]
    obtain ⟨p, hp⟩ := pickEarlier_eq_some (some b) x
    rw [hp]
    exact ih p

/-! ## C2 -/

/-- C2 counterexample: `db2` holds a single outstanding command for tank 1
whose status is `delivered` (the status `retry_stale_commands` assigns), yet
`get_pending_command_for_tank` returns nothing — contradicting the claim that
for a device with an outstanding (pending or delivered) command the fetch
returns the earliest such command. -/
theorem c2_delivered_command_invisible :
    (∃ c ∈ db2.commands, c.tank_id = 1 ∧ c.status = CommandStatus.delivered) ∧
    get_pending_command_for_tank db2 1 = none := by
  constructor
  · exact ⟨deliveredAt 100, by decide, by decide, by decide⟩
  · rfl

/-- C2 (amended): `get_pending_command_for_tank` serves the device's oldest
command among those with status `pending` or `in_progress` (never one that is
`success`, `failed` — or `delivered`), and returns one whenever such a
command exists. -/
theorem c2_fetch_pending_fifo (db : DB) (tid : Nat) :
    (∀ c, get_pending_command_for_tank db tid = some c →
      c ∈ db.commands ∧ c.tank_id = tid ∧
      (c.status = CommandStatus.pending ∨ c.status = CommandStatus.in_progress) ∧
      c.status ≠ CommandStatus.success ∧ c.status ≠ CommandStatus.failed ∧
      c.status ≠ CommandStatus.delivered ∧
      (∀ b ∈ db.commands, b.tank_id = tid →
        (b.status = CommandStatus.pending ∨ b.status = CommandStatus.in_progress) →
        c.created_at ≤ b.created_at)) ∧
    (∀ b ∈ db.commands, b.tank_id = tid →
      (b.status = CommandStatus.pending ∨ b.status = CommandStatus.in_progress) →
      (get_pending_command_for_tank db tid).isSome) := by
  constructor
  · intro c h
    unfold get_pending_command_for_tank earliestByCreatedAt at h
    have hmem :
        c ∈ db.commands.filter
          (fun x => x.tank_id == tid && isPendingOrInProgress x) := by
      rcases foldl_pickEarlier_mem _ none c h with h' | h'
      · cases h'
      · exact h'
    have hmin := (foldl_pickEarlier_le _ none c h).2
    obtain ⟨hc, hp⟩ := List.mem_filter.mp hmem
    simp only [Bool.and_eq_true, beq_iff_eq, isPendingOrInProgress,
      Bool.or_eq_true] at hp
    refine ⟨hc, hp.1, hp.2, ?_, ?_, ?_, ?_⟩
    · rcases hp.2 with h' | h' <;> simp [h']
    · rcases hp.2 with h' | h' <;> simp [h']
    · rcases hp.2 with h' | h' <;> simp [h']
    · intro b hb h1 h2
      refine hmin b (List.mem_filter.mpr ⟨hb, ?_⟩)
      simp only [Bool.and_eq_true, beq_iff_eq, isPendingOrInProgress,
        Bool.or_eq_true]
      exact ⟨h1, h2⟩
  · intro b hb h1 h2
    have hmem :
        b ∈ db.commands.filter
          (fun x => x.tank_id == tid && isPendingOrInProgress x) := by
      refine List.mem_filter.mpr ⟨hb, ?_⟩
      simp only [Bool.and_eq_true, beq_iff_eq, isPendingOrInProgress,
        Bool.or_eq_true]
      exact ⟨h1, h2⟩
    unfold get_pending_command_for_tank earliestByCreatedAt
    cases hl : db.commands.filter
        (fun x => x.tank_id == tid && isPendingOrInProgress x) with
    | nil => rw [hl] at hmem; cases hmem
    | cons x xs =>
      simp only [List.foldl_cons]
      have hx : pickEarlier none x = some x := rfl
      rw [hx]
      exact foldl_pickEarlier_isSome xs x

/-- C2 witness: on the concrete store `dbInit` (one fresh pending command for
tank 1) the fetch indeed returns something. -/
theorem c2_witness : (get_pending_command_for_tank dbInit 1).isSome :=
  (c2_fetch_pending_fifo dbInit 1).2 cmd0 (by decide) (by decide)
    (Or.inl (by decide))

/-! ## C3 -/

/-- C3: a command selected by the retry sweep with `retries < MAX_RETRIES`
gets its retry counter incremented by exactly one, its `next_retry_at` set to
the sweep time plus `BASE_BACKOFF_SECONDS * 2^(retries - 1)` for the new
counter value, and its status set to `delivered`; the backoff is strictly
increasing in the retry number and evaluates to +60 s, +120 s, +240 s for the
defaults. -/
theorem c3_retry_backoff (db : DB) (now : Nat) (c : TankCommand)
    (hmem : c ∈ db.commands) (hsel : isHeadOfLine db now c = true)
    (hlt : c.retries < MAX_RETRIES) :
    (retrySweepUpdate now c).retries = c.retries + 1 ∧
    (retrySweepUpdate now c).next_retry_at =
      now + BASE_BACKOFF_SECONDS * 2 ^ ((c.retries + 1) - 1) ∧
    (retrySweepUpdate now c).status = CommandStatus.delivered ∧
    retrySweepUpdate now c ∈ (retry_stale_commands db now).1.commands ∧
    (∀ k, 1 ≤ k →
      BASE_BACKOFF_SECONDS * 2 ^ (k - 1) <
        BASE_BACKOFF_SECONDS * 2 ^ ((k + 1) - 1)) ∧
    BASE_BACKOFF_SECONDS * 2 ^ (1 - 1) = 60 ∧
    BASE_BACKOFF_SECONDS * 2 ^ (2 - 1) = 120 ∧
    BASE_BACKOFF_SECONDS * 2 ^ (3 - 1) = 240 := by
  have hnot : ¬ c.retries ≥ MAX_RETRIES := by omega
  refine ⟨?_, ?_, ?_, ?_, ?_, by decide, by decide, by decide⟩
  · simp [retrySweepUpdate, if_neg hnot]
  · simp [retrySweepUpdate, if_neg hnot]
  · simp [retrySweepUpdate, if_neg hnot]
  · have hmap := List.mem_map_of_mem
      (fun x => if isHeadOfLine db now x then retrySweepUpdate now x else x) hmem
    simp only [hsel, ite_true] at hmap
    simpa [retry_stale_commands] using hmap
  · intro k hk
    have hk1 : k + 1 - 1 = (k - 1) + 1 := by omega
    rw [hk1, pow_succ]
    have hx : 0 < 2 ^ (k - 1) := Nat.pos_pow_of_pos _ (by norm_num)
    simp only [BASE_BACKOFF_SECONDS]
    omega

/-- C3 witness: the fresh command `cmd0` is head-of-line in `dbInit` at sweep
time 100 and below the retry cap; the sweep delivers it with backoff. -/
theorem c3_witness :
    retrySweepUpdate 100 cmd0 ∈ (retry_stale_commands dbInit 100).1.commands ∧
    (retrySweepUpdate 100 cmd0).status = CommandStatus.delivered := by
  have H := c3_retry_backoff dbInit 100 cmd0 (by decide) (by decide) (by decide)
  exact ⟨H.2.2.2.1, H.2.2.1⟩

/-! ## C7 -/

/-- C7: `acknowledge_command` errors exactly when the command id is unknown
or the command belongs to a different tank; in the success case the command's
row is rewritten with the status chosen by the success flag, `retries`
pinned to `MAX_RETRIES` and both timestamps stamped, while tanks, settings
and schedule log are untouched.  (Errors return no state at all, mirroring
the source raising before any ORM mutation.) -/
theorem c7_ack_validation (db : DB) (tid cid : Nat) (success : Bool) (now : Nat) :
    (∀ e, acknowledge_command db tid cid success now = .error e →
      findCommand db cid = none ∨
      ∃ c, findCommand db cid = some c ∧ c.tank_id ≠ tid) ∧
    (findCommand db cid = none →
      acknowledge_command db tid cid success now = .error "Command not found.") ∧
    (∀ c, findCommand db cid = some c → c.tank_id ≠ tid →
      acknowledge_command db tid cid success now =
        .error "Command does not belong to this tank.") ∧
    (∀ c, findCommand db cid = some c → c.tank_id = tid →
      acknowledge_command db tid cid success now = .ok
        { db := { db with commands := db.commands.map (fun x =>
            if x.command_id == cid then
              { c with
                status := if success then CommandStatus.success
                          else CommandStatus.failed
                retries := MAX_RETRIES
                last_attempt_at := some now
                completed_at := some now
                result := some (if success then "Command executed successfully"
                                else "Command execution failed") }
            else x) }
          notifs := match findTank db tid with
            | some tank => [{ status := "command_ack",
                              tank_name := tank.tank_name }]
            | none => [] }) := by
  refine ⟨?_, ?_, ?_, ?_⟩
  · intro e he
    cases hf : findCommand db cid with
    | none => exact Or.inl rfl
    | some c0 =>
      by_cases ht : c0.tank_id = tid
      · simp [acknowledge_command, hf, ht] at he
      · exact Or.inr ⟨c0, rfl, ht⟩
  · intro hf
    simp [acknowledge_command, hf]
  · intro c hc hne
    simp [acknowledge_command, hc, hne]
  · intro c hc heq
    simp [acknowledge_command, hc, heq, ackUpdate, ackNotifs]

/-- C7 witness: acknowledging an unknown command id on the concrete store
`dbInit` errors with the not-found message. -/
theorem c7_witness :
    acknowledge_command dbInit 1 99 true 100 = .error "Command not found." :=
  (c7_ack_validation dbInit 1 99 true 100).2.1 (by decide)

/-! ## C1 -/

theorem sweep_from_init (now : Nat) :
    (retry_stale_commands dbInit now).1 = dbDelivered now := by
  simp [retry_stale_commands, dbInit, dbDelivered, deliveredAt, cmd0,
    isHeadOfLine, minCreatedForTank, retryEligible, isPendingOrInProgress,
    retrySweepUpdate, MAX_RETRIES, BASE_BACKOFF_SECONDS]

theorem sweep_from_delivered (t now : Nat) :
    (retry_stale_commands (dbDelivered t) now).1 = dbDelivered t := by
  simp [retry_stale_commands, dbInit, dbDelivered, deliveredAt, cmd0,
    isHeadOfLine, minCreatedForTank, retryEligible, isPendingOrInProgress]

theorem foldl_sweeps_from_delivered (ts : List Nat) :
    ∀ t : Nat,
      ts.foldl (fun db u => (retry_stale_commands db u).1) (dbDelivered t) =
        dbDelivered t := by
  induction ts with
  | nil => intro t; rfl
  | cons u us ih =>
    intro t
    simp only [List.foldl_cons, sweep_from_delivered]
    exact ih t

/-- C1 (code bug): a fresh command that is never acknowledged is touched by
the very first retry sweep — which sets its status to `delivered` — and is
then invisible to every later sweep (the sweep selects only
`pending`/`in_progress`), so after any sequence of sweeps it still has
`retries = 1` and status `delivered`: it never reaches `MAX_RETRIES`, never
transitions to `failed`, and is also never again returned by
`get_pending_command_for_tank`, contradicting the specified
retry-until-exhaustion behaviour. -/
theorem c1_retry_exhaustion_unreachable (t : Nat) (ts : List Nat) :
    (sweepTrace (t :: ts)).commands = [deliveredAt t] ∧
    (deliveredAt t).status = CommandStatus.delivered ∧
    ((deliveredAt t).status == CommandStatus.failed) = false ∧
    (deliveredAt t).retries = 1 ∧
    get_pending_command_for_tank (sweepTrace (t :: ts)) 1 = none := by
  have htrace : sweepTrace (t :: ts) = dbDelivered t := by
    unfold sweepTrace
    simp only [List.foldl_cons, sweep_from_init]
    exact foldl_sweeps_from_delivered ts t
  rw [htrace]
  refine ⟨rfl, rfl, rfl, rfl, ?_⟩
  simp [get_pending_command_for_tank, dbDelivered, deliveredAt, cmd0,
    isPendingOrInProgress, earliestByCreatedAt]

/-! ## C10 -/

/-- C10: every command-lifecycle operation preserves
`0 ≤ retries ≤ MAX_RETRIES` (the lower bound is carried by `Nat`):
`issue_command` starts the counter at 0, the retry sweep increments only
below the cap and marks `failed` without incrementing at the cap, and
`acknowledge_command` pins the counter to exactly `MAX_RETRIES`. -/
theorem c10_retries_invariant :
    (∀ db tid ct ps src now nid r,
      issue_command db tid ct ps src now nid = .ok r →
      r.new_command.retries = 0 ∧
      (RetriesBounded db → RetriesBounded r.db)) ∧
    (∀ db now, RetriesBounded db →
      RetriesBounded (retry_stale_commands db now).1) ∧
    (∀ now c, (c.retries < MAX_RETRIES →
        (retrySweepUpdate now c).retries = c.retries + 1) ∧
      (MAX_RETRIES ≤ c.retries →
        (retrySweepUpdate now c).retries = c.retries ∧
        (retrySweepUpdate now c).status = CommandStatus.failed)) ∧
    (∀ db tid cid success now r,
      acknowledge_command db tid cid success now = .ok r →
      (RetriesBounded db → RetriesBounded r.db) ∧
      (∀ c ∈ r.db.commands, c.command_id = cid →
        c.retries = MAX_RETRIES)) := by
  refine ⟨?_, ?_, ?_, ?_⟩
  · intro db tid ct ps src now nid r h
    unfold issue_command at h
    cases hf : findTank db tid with
    | none => rw [hf] at h; cases h
    | some tank =>
      rw [hf] at h
      simp only [Except.ok.injEq] at h
      subst h
      refine ⟨rfl, fun hb c hc => ?_⟩
      simp only at hc
      rcases List.mem_append.mp hc with h' | h'
      · exact hb c h'
      · have := List.mem_singleton.mp h'
        rw [this]
        simp [MAX_RETRIES]
  · intro db now hb c hc
    unfold retry_stale_commands at hc
    simp only at hc
    obtain ⟨x, hx, hfx⟩ := List.mem_map.mp hc
    by_cases hh : isHeadOfLine db now x = true
    · rw [if_pos hh] at hfx
      have hxb := hb x hx
      rw [← hfx]
      unfold retrySweepUpdate
      by_cases hr : x.retries ≥ MAX_RETRIES
      · rw [if_pos hr]; exact hxb
      · rw [if_neg hr]; simp only; omega
    · rw [if_neg hh] at hfx
      rw [← hfx]
      exact hb x hx
  · intro now c
    constructor
    · intro hlt
      unfold retrySweepUpdate
      rw [if_neg (by omega)]
    · intro hge
      unfold retrySweepUpdate
      rw [if_pos hge]
      exact ⟨rfl, rfl⟩
  · intro db tid cid success now r h
    unfold acknowledge_command at h
    cases hf : findCommand db cid with
    | none => rw [hf] at h; cases h
    | some c0 =>
      rw [hf] at h
      simp only [] at h
      by_cases ht : c0.tank_id ≠ tid
      · rw [if_pos ht] at h; cases h
      · rw [if_neg ht] at h
        simp only [Except.ok.injEq] at h
        subst h
        have hc0 : c0.command_id = cid := by
          have := List.find?_some hf
          simpa using this
        constructor
        · intro hb c hc
          simp only at hc
          obtain ⟨x, hx, hfx⟩ := List.mem_map.mp hc
          by_cases hm : (x.command_id == cid) = true
          · rw [if_pos hm] at hfx
            rw [← hfx]
            simp [ackUpdate]
          · rw [if_neg hm] at hfx
            rw [← hfx]
            exact hb x hx
        · intro c hc hcid
          simp only at hc
          obtain ⟨x, hx, hfx⟩ := List.mem_map.mp hc
          by_cases hm : (x.command_id == cid) = true
          · rw [if_pos hm] at hfx
            rw [← hfx]
            simp [ackUpdate]
          · rw [if_neg hm] at hfx
            rw [← hfx] at hcid
            rw [hcid] at hm
            simp at hm

/-- C10 witness: the invariant holds across a concrete sweep of `dbInit`. -/
theorem c10_witness : RetriesBounded (retry_stale_commands dbInit 100).1 :=
  c10_retries_invariant.2.1 dbInit 100 (by decide)

/-! ## C6 -/

theorem ackUpdate_command_id (c : TankCommand) (success : Bool) (now : Nat) :
    (ackUpdate c success now).command_id = c.command_id := rfl

theorem ackUpdate_tank_id (c : TankCommand) (success : Bool) (now : Nat) :
    (ackUpdate c success now).tank_id = c.tank_id := rfl

theorem ackUpdate_twice (c : TankCommand) (success : Bool) (t1 t2 : Nat) :
    ackUpdate (ackUpdate c success t1) success t2 =
      { ackUpdate c success t1 with
        last_attempt_at := some t2, completed_at := some t2 } := rfl

theorem ack_ok_eq (db : DB) (tid cid : Nat) (success : Bool) (now : Nat)
    (c0 : TankCommand) (hf : findCommand db cid = some c0)
    (ht : c0.tank_id = tid) :
    acknowledge_command db tid cid success now = .ok
      { db := { db with commands := db.commands.map (fun c =>
          if c.command_id == cid then ackUpdate c0 success now else c) }
        notifs := ackNotifs db tid } := by
  unfold acknowledge_command
  rw [hf]
  simp only []
  rw [if_neg (not_not_intro ht)]

theorem findCommand_after_ack (db : DB) (cid : Nat) (success : Bool)
    (now : Nat) (c0 : TankCommand) (hf : findCommand db cid = some c0) :
    findCommand
      { db with commands := db.commands.map (fun c =>
          if c.command_id == cid then ackUpdate c0 success now else c) } cid =
      some (ackUpdate c0 success now) := by
  have hcid : (c0.command_id == cid) = true :=
    @List.find?_some TankCommand (fun c => c.command_id == cid) c0
      db.commands hf
  show (db.commands.map (fun c =>
      if c.command_id == cid then ackUpdate c0 success now else c)).find?
      (fun c => c.command_id == cid) = some (ackUpdate c0 success now)
  rw [List.find?_map]
  have hpg : ((fun c : TankCommand => c.command_id == cid) ∘
      (fun c => if c.command_id == cid then ackUpdate c0 success now else c)) =
      (fun c : TankCommand => c.command_id == cid) := by
    funext x
    by_cases hx : (x.command_id == cid) = true
    · simp [Function.comp, hx, ackUpdate_command_id, hcid]
    · simp [Function.comp, hx]
  rw [hpg]
  have hf' : db.commands.find? (fun c => c.command_id == cid) = some c0 := hf
  rw [hf']
  simp [hcid]
  intro hne
  exact absurd (by simpa using hcid) hne

theorem map_reack (l : List TankCommand) (cid : Nat) (u : TankCommand)
    (t2 : Nat) :
    (l.map (fun c => if c.command_id == cid then u else c)).map
      (fun c => if c.command_id == cid then
        { u with last_attempt_at := some t2, completed_at := some t2 }
      else c) =
    (l.map (fun c => if c.command_id == cid then u else c)).map
      (fun c => if c.command_id == cid then
        { c with last_attempt_at := some t2, completed_at := some t2 }
      else c) := by
  apply List.map_congr_left
  intro y hy
  by_cases hyc : (y.command_id == cid) = true
  · rw [if_pos hyc, if_pos hyc]
    obtain ⟨x, hx, hfx⟩ := List.mem_map.mp hy
    by_cases hxc : (x.command_id == cid) = true
    · rw [if_pos hxc] at hfx
      rw [← hfx]
    · rw [if_neg hxc] at hfx
      rw [← hfx] at hyc
      exact absurd hyc hxc
  · rw [if_neg hyc, if_neg hyc]

/-- C6 counterexample: re-acknowledging the same command with the same
outcome is neither a no-op nor an error — the second call rewrites
`last_attempt_at`/`completed_at` to the new current time (completed_at moves
from 100 to 200) and sends the `command_ack` notification a second time. -/
theorem c6_reack_changes_state_and_renotifies :
    firstAck.map (fun r => r.db.commands.map (fun c => c.completed_at)) =
      .ok [some 100] ∧
    secondAck.map (fun r => r.db.commands.map (fun c => c.completed_at)) =
      .ok [some 200] ∧
    secondAck.map (fun r => r.notifs.length) = .ok 1 :=
  ⟨rfl, rfl, rfl⟩

/-- C6 (amended): re-acknowledging an already-acknowledged command with the
same outcome succeeds (no error) and is idempotent on status, retries and
result, but it re-stamps `last_attempt_at` and `completed_at` with the new
current time and emits the acknowledgment notification again. -/
theorem c6_reack_restamps_and_renotifies (db : DB) (tid cid : Nat)
    (success : Bool) (t1 t2 : Nat) (r1 : AckResult)
    (h : acknowledge_command db tid cid success t1 = .ok r1) :
    ∃ r2, acknowledge_command r1.db tid cid success t2 = .ok r2 ∧
      r2.notifs = r1.notifs ∧
      r2.db.tanks = r1.db.tanks ∧
      r2.db.settings = r1.db.settings ∧
      r2.db.schedule_log = r1.db.schedule_log ∧
      r2.db.commands = r1.db.commands.map (fun c =>
        if c.command_id == cid then
          { c with last_attempt_at := some t2, completed_at := some t2 }
        else c) := by
  unfold acknowledge_command at h
  cases hf : findCommand db cid with
  | none => rw [hf] at h; cases h
  | some c0 =>
    rw [hf] at h
    simp only [] at h
    by_cases ht : c0.tank_id ≠ tid
    · rw [if_pos ht] at h; cases h
    · rw [if_neg ht] at h
      simp only [Except.ok.injEq] at h
      subst h
      have ht' : c0.tank_id = tid := not_not.mp ht
      have hfind2 := findCommand_after_ack db cid success t1 c0 hf
      have htank2 : (ackUpdate c0 success t1).tank_id = tid := by
        rw [ackUpdate_tank_id]; exact ht'
      have hok := ack_ok_eq
        { db with commands := db.commands.map (fun c =>
            if c.command_id == cid then ackUpdate c0 success t1 else c) }
        tid cid success t2 (ackUpdate c0 success t1) hfind2 htank2
      refine ⟨_, hok, rfl, rfl, rfl, rfl, ?_⟩
      simp only [ackUpdate_twice]
      exact map_reack db.commands cid (ackUpdate c0 success t1) t2

/-- C6 witness: the amended behaviour on the concrete store `dbInit`. -/
theorem c6_witness :
    ∃ r1 r2, acknowledge_command dbInit 1 10 true 100 = .ok r1 ∧
      acknowledge_command r1.db 1 10 true 200 = .ok r2 ∧
      r2.notifs = r1.notifs := by
  obtain ⟨r1, h1⟩ :
      ∃ r1, acknowledge_command dbInit 1 10 true 100 = .ok r1 := ⟨_, rfl⟩
  obtain ⟨r2, h2, hn, _⟩ :=
    c6_reack_restamps_and_renotifies dbInit 1 10 true 100 200 r1 h1
  exact ⟨r1, r2, h1, h2, hn⟩

/-! ## C9 -/

/-- C9: the enforcement engine's `inside_window` test is correct for both
window shapes — same-day windows (`light_on < light_off`) are inside exactly
on `[light_on, light_off)`, overnight windows (`light_on > light_off`) are
inside exactly on `now ≥ light_on ∨ now < light_off`; for the 22:00–06:00
window, 23:00 and 02:00 are inside and 12:00 is outside. -/
theorem c9_inside_window (on_t off_t now_t : Nat) :
    (on_t < off_t →
      (insideWindow on_t off_t now_t = true ↔ on_t ≤ now_t ∧ now_t < off_t)) ∧
    (off_t < on_t →
      (insideWindow on_t off_t now_t = true ↔ now_t ≥ on_t ∨ now_t < off_t)) ∧
    insideWindow 79200 21600 82800 = true ∧
    insideWindow 79200 21600 7200 = true ∧
    insideWindow 79200 21600 43200 = false := by
  refine ⟨?_, ?_, by decide, by decide, by decide⟩
  · intro h
    simp [insideWindow, if_pos h]
  · intro h
    have h' : ¬ on_t < off_t := by omega
    simp [insideWindow, if_neg h']

/-- C9 witness: 23:00 is inside the overnight window 22:00–06:00. -/
theorem c9_witness : insideWindow 79200 21600 82800 = true :=
  ((c9_inside_window 79200 21600 82800).2.1 (by norm_num)).mpr
    (Or.inl (by norm_num))

/-! ## C8 -/

theorem nextEdge_spec (now L e : Nat) (hL : L < secondsPerDay)
    (he : e = if now < dayOf now * secondsPerDay + L
              then dayOf now * secondsPerDay + L
              else dayOf now * secondsPerDay + L + secondsPerDay) :
    now < e ∧ timeOfDay e = L ∧ ∀ u, now < u → timeOfDay u = L → e ≤ u := by
  subst he
  simp only [dayOf, timeOfDay, secondsPerDay] at *
  by_cases hc : now < now / 86400 * 86400 + L
  · rw [if_pos hc]
    exact ⟨hc, by omega, fun u hu hL' => by omega⟩
  · rw [if_neg hc]
    exact ⟨by omega, by omega, fun u hu hL' => by omega⟩

/-- C8: `manual_override_command` pauses the schedule until the next
opposite edge: forcing off pauses until today's `light_on` instant if `now`
is still before it and tomorrow's otherwise; forcing on does the same with
`light_off`.  The stored instant is moreover exactly the least instant after
`now` whose time of day is the opposite edge time. -/
theorem c8_override_pauses_to_opposite_edge (name : String)
    (s : TankSettings) (now : Nat)
    (hOn : s.light_on < secondsPerDay) (hOff : s.light_off < secondsPerDay) :
    (∃ r, manual_override_command name s "light_off" now = some r ∧
      r.settings.schedule_paused_until = some
        (if now < dayOf now * secondsPerDay + s.light_on
         then dayOf now * secondsPerDay + s.light_on
         else dayOf now * secondsPerDay + s.light_on + secondsPerDay) ∧
      (∀ p, r.settings.schedule_paused_until = some p →
        now < p ∧ timeOfDay p = s.light_on ∧
        (∀ u, now < u → timeOfDay u = s.light_on → p ≤ u))) ∧
    (∃ r, manual_override_command name s "light_on" now = some r ∧
      r.settings.schedule_paused_until = some
        (if now < dayOf now * secondsPerDay + s.light_off
         then dayOf now * secondsPerDay + s.light_off
         else dayOf now * secondsPerDay + s.light_off + secondsPerDay) ∧
      (∀ p, r.settings.schedule_paused_until = some p →
        now < p ∧ timeOfDay p = s.light_off ∧
        (∀ u, now < u → timeOfDay u = s.light_off → p ≤ u))) := by
  constructor
  · refine ⟨_, rfl, rfl, ?_⟩
    intro p hp
    simp only [manual_override_command, Option.some.injEq] at hp
    exact nextEdge_spec now s.light_on p hOn (by rw [← hp])
  · refine ⟨_, rfl, rfl, ?_⟩
    intro p hp
    simp only [manual_override_command, Option.some.injEq] at hp
    exact nextEdge_spec now s.light_off p hOff (by rw [← hp])

/-- C8 witness: forcing off at 11:00 on day 0 with the default 10:00–16:00
window pauses the schedule until day 1's 10:00 (timestamp 122400). -/
theorem c8_witness :
    ∃ r, manual_override_command "T" s0 "light_off" 39600 = some r ∧
      r.settings.schedule_paused_until = some
        (if 39600 < dayOf 39600 * secondsPerDay + s0.light_on
         then dayOf 39600 * secondsPerDay + s0.light_on
         else dayOf 39600 * secondsPerDay + s0.light_on + secondsPerDay) :=
  match (c8_override_pauses_to_opposite_edge "T" s0 39600 (by decide)
    (by decide)).1 with
  | ⟨r, h1, h2, _⟩ => ⟨r, h1, h2⟩

/-! ## Scheduler tick lemmas (shared by C4 and C5) -/

theorem dayOf_tick (d m : Nat) (hm : m < 1440) :
    dayOf (d * secondsPerDay + 60 * m) = d := by
  simp only [dayOf, secondsPerDay]
  omega

theorem timeOfDay_tick (d m : Nat) (hm : m < 1440) :
    timeOfDay (d * secondsPerDay + 60 * m) = 60 * m := by
  simp only [timeOfDay, secondsPerDay]
  omega

theorem dayOf_day_start (d : Nat) : dayOf (d * secondsPerDay) = d := by
  simp only [dayOf, secondsPerDay]
  omega

theorem checkedToday_congr (marker : Option Nat) (t1 t2 : Nat)
    (h : dayOf t1 = dayOf t2) :
    checkedToday marker t1 = checkedToday marker t2 := by
  cases marker <;> simp [checkedToday, h]

theorem checkedToday_same_day (x t : Nat) (h : dayOf x = dayOf t) :
    checkedToday (some x) t = true := by
  simp [checkedToday, h]

theorem insideWindow_false_before (on_m off_m m : Nat)
    (h1 : on_m < off_m) (h2 : m < on_m) :
    insideWindow (60 * on_m) (60 * off_m) (60 * m) = false := by
  simp [insideWindow, show 60 * on_m < 60 * off_m by omega,
    show ¬ 60 * on_m ≤ 60 * m by omega]

theorem insideWindow_true_inside (on_m off_m m : Nat)
    (h1 : on_m < off_m) (h2 : on_m ≤ m) (h3 : m < off_m) :
    insideWindow (60 * on_m) (60 * off_m) (60 * m) = true := by
  simp [insideWindow, show 60 * on_m < 60 * off_m by omega,
    show 60 * on_m ≤ 60 * m by omega, show 60 * m < 60 * off_m by omega]

theorem insideWindow_false_after (on_m off_m m : Nat)
    (h1 : on_m < off_m) (h2 : off_m ≤ m) :
    insideWindow (60 * on_m) (60 * off_m) (60 * m) = false := by
  simp [insideWindow, show 60 * on_m < 60 * off_m by omega,
    show ¬ 60 * m < 60 * off_m by omega]

theorem tick_skip_outside (name : String) (s : TankSettings) (now : Nat)
    (h_en : s.is_schedule_enabled = true)
    (h_ov : s.manual_override_state = none)
    (hin : insideWindow s.light_on s.light_off (timeOfDay now) = false)
    (h_on : checkedToday s.last_schedule_check_on now = false) :
    enforce_lighting_schedule_for_tank name s now =
      { settings := s, issued := [], log := [], notifs := [] } := by
  simp [enforce_lighting_schedule_for_tank, h_en, h_ov, hin, h_on]

theorem tick_fire_on (name : String) (s : TankSettings) (now : Nat)
    (h_en : s.is_schedule_enabled = true)
    (h_ov : s.manual_override_state = none)
    (hin : insideWindow s.light_on s.light_off (timeOfDay now) = true)
    (h_on : checkedToday s.last_schedule_check_on now = false) :
    enforce_lighting_schedule_for_tank name s now =
      { settings := { s with
          last_schedule_check_off := none
          last_schedule_check_on := some now }
        issued := [("light_on", "system")]
        log := [{ tank_id := s.tank_id, event_type := "light_on",
                  trigger_source := "scheduled" }]
        notifs := [{ status := "light_on", tank_name := name }] } := by
  simp [enforce_lighting_schedule_for_tank, h_en, h_ov, hin, h_on]

theorem tick_skip_inside_done (name : String) (s : TankSettings) (now : Nat)
    (h_en : s.is_schedule_enabled = true)
    (h_ov : s.manual_override_state = none)
    (hin : insideWindow s.light_on s.light_off (timeOfDay now) = true)
    (h_on : checkedToday s.last_schedule_check_on now = true) :
    enforce_lighting_schedule_for_tank name s now =
      { settings := s, issued := [], log := [], notifs := [] } := by
  simp [enforce_lighting_schedule_for_tank, h_en, h_ov, hin, h_on]

theorem tick_fire_off (name : String) (s : TankSettings) (now : Nat)
    (h_en : s.is_schedule_enabled = true)
    (h_ov : s.manual_override_state = none)
    (hin : insideWindow s.light_on s.light_off (timeOfDay now) = false)
    (h_on : checkedToday s.last_schedule_check_on now = true)
    (h_off : checkedToday s.last_schedule_check_off now = false) :
    enforce_lighting_schedule_for_tank name s now =
      { settings := { s with last_schedule_check_off := some now }
        issued := [("light_off", "system")]
        log := [{ tank_id := s.tank_id, event_type := "light_off",
                  trigger_source := "scheduled" }]
        notifs := [{ status := "light_off", tank_name := name }] } := by
  simp [enforce_lighting_schedule_for_tank, h_en, h_ov, hin, h_on, h_off]

theorem tick_skip_outside_done (name : String) (s : TankSettings) (now : Nat)
    (h_en : s.is_schedule_enabled = true)
    (h_ov : s.manual_override_state = none)
    (hin : insideWindow s.light_on s.light_off (timeOfDay now) = false)
    (h_on : checkedToday s.last_schedule_check_on now = true)
    (h_off : checkedToday s.last_schedule_check_off now = true) :
    enforce_lighting_schedule_for_tank name s now =
      { settings := s, issued := [], log := [], notifs := [] } := by
  simp [enforce_lighting_schedule_for_tank, h_en, h_ov, hin, h_on, h_off]

theorem foldl_tickStep_no_action (name : String) (times : List Nat) :
    ∀ acc : DayRun,
      (∀ t ∈ times,
        enforce_lighting_schedule_for_tank name acc.settings t =
          { settings := acc.settings, issued := [], log := [], notifs := [] }) →
      times.foldl (tickStep name) acc = acc := by
  induction times with
  | nil => intro acc _; rfl
  | cons t ts ih =>
    intro acc h
    have hstep : tickStep name acc t = acc := by
      unfold tickStep
      rw [h t (List.mem_cons_self t ts)]
      cases acc
      simp
    rw [List.foldl_cons, hstep]
    exact ih acc (fun u hu => h u (List.mem_cons_of_mem t hu))

theorem dayRun_stable_window (name : String) (s : TankSettings)
    (d on_m off_m : Nat)
    (h_en : s.is_schedule_enabled = true)
    (h_ov : s.manual_override_state = none)
    (hLon : s.light_on = 60 * on_m)
    (hLoff : s.light_off = 60 * off_m)
    (hlt : on_m < off_m) (hhi : off_m < 1440)
    (h_on : checkedToday s.last_schedule_check_on (d * secondsPerDay) = false) :
    runTicks name s (minuteTicksOfDay d) =
      { settings := { s with
          last_schedule_check_on := some (d * secondsPerDay + 60 * on_m)
          last_schedule_check_off := some (d * secondsPerDay + 60 * off_m) }
        issued := [("light_on", "system"), ("light_off", "system")]
        log := [{ tank_id := s.tank_id, event_type := "light_on",
                  trigger_source := "scheduled" },
                { tank_id := s.tank_id, event_type := "light_off",
                  trigger_source := "scheduled" }] } := by
  have hAB : List.range' 0 on_m ++ [on_m] = List.range' 0 (on_m + 1) := by
    have h := List.range'_append 0 on_m 1 1
    simp only [Nat.one_mul, Nat.zero_add] at h
    rw [show List.range' on_m 1 = [on_m] from rfl] at h
    rw [Nat.add_comm 1 on_m] at h
    exact h
  have hCD : List.range' (on_m + 1) (off_m - on_m - 1) ++ [off_m] =
      List.range' (on_m + 1) (off_m - on_m) := by
    have h := List.range'_append (on_m + 1) (off_m - on_m - 1) 1 1
    simp only [Nat.one_mul] at h
    rw [show on_m + 1 + (off_m - on_m - 1) = off_m by omega] at h
    rw [show List.range' off_m 1 = [off_m] from rfl] at h
    rw [show 1 + (off_m - on_m - 1) = off_m - on_m by omega] at h
    exact h
  have hABCD : List.range' 0 (on_m + 1) ++
      List.range' (on_m + 1) (off_m - on_m) = List.range' 0 (off_m + 1) := by
    have h := List.range'_append 0 (on_m + 1) (off_m - on_m) 1
    simp only [Nat.one_mul, Nat.zero_add] at h
    rw [show off_m - on_m + (on_m + 1) = off_m + 1 by omega] at h
    exact h
  have hE : List.range' 0 (off_m + 1) ++
      List.range' (off_m + 1) (1439 - off_m) = List.range' 0 1440 := by
    have h := List.range'_append 0 (off_m + 1) (1439 - off_m) 1
    simp only [Nat.one_mul, Nat.zero_add] at h
    rw [show 1439 - off_m + (off_m + 1) = 1440 by omega] at h
    exact h
  have hsplit : List.range 1440 =
      ((List.range' 0 on_m ++ [on_m]) ++
        (List.range' (on_m + 1) (off_m - on_m - 1) ++ [off_m])) ++
        List.range' (off_m + 1) (1439 - off_m) := by
    rw [List.range_eq_range', ← hE, ← hABCD, ← hAB, ← hCD]
  unfold runTicks minuteTicksOfDay
  rw [hsplit]
  rw [List.map_append, List.map_append, List.map_append, List.map_append]
  rw [List.foldl_append, List.foldl_append, List.foldl_append,
    List.foldl_append]
  have hA : ((List.range' 0 on_m).map
        (fun m => d * secondsPerDay + 60 * m)).foldl (tickStep name)
      { settings := s, issued := [], log := [] } =
      { settings := s, issued := [], log := [] } := by
    apply foldl_tickStep_no_action
    intro t ht
    obtain ⟨m, hm, rfl⟩ := List.mem_map.mp ht
    have hm' : m < on_m := by
      have := List.mem_range'_1.mp hm
      omega
    apply tick_skip_outside name s _ h_en h_ov
    · rw [timeOfDay_tick d m (by omega), hLon, hLoff]
      exact insideWindow_false_before on_m off_m m hlt hm'
    · rw [checkedToday_congr s.last_schedule_check_on _ (d * secondsPerDay)
        (by rw [dayOf_tick d m (by omega), dayOf_day_start])]
      exact h_on
  rw [hA]
  simp only [List.map_cons, List.map_nil, List.foldl_cons, List.foldl_nil]
  have hfire1 : tickStep name { settings := s, issued := [], log := [] }
      (d * secondsPerDay + 60 * on_m) =
      { settings := { s with
          last_schedule_check_off := none
          last_schedule_check_on := some (d * secondsPerDay + 60 * on_m) }
        issued := [("light_on", "system")]
        log := [{ tank_id := s.tank_id, event_type := "light_on",
                  trigger_source := "scheduled" }] } := by
    unfold tickStep
    rw [tick_fire_on name s (d * secondsPerDay + 60 * on_m) h_en h_ov
      (by rw [timeOfDay_tick d on_m (by omega), hLon, hLoff]
          exact insideWindow_true_inside on_m off_m on_m hlt (le_refl _) hlt)
      (by rw [checkedToday_congr s.last_schedule_check_on _ (d * secondsPerDay)
            (by rw [dayOf_tick d on_m (by omega), dayOf_day_start])]
          exact h_on)]
    simp
  rw [hfire1]
  have hC : ((List.range' (on_m + 1) (off_m - on_m - 1)).map
        (fun m => d * secondsPerDay + 60 * m)).foldl (tickStep name)
      { settings := { s with
          last_schedule_check_off := none
          last_schedule_check_on := some (d * secondsPerDay + 60 * on_m) }
        issued := [("light_on", "system")]
        log := [{ tank_id := s.tank_id, event_type := "light_on",
                  trigger_source := "scheduled" }] } =
      { settings := { s with
          last_schedule_check_off := none
          last_schedule_check_on := some (d * secondsPerDay + 60 * on_m) }
        issued := [("light_on", "system")]
        log := [{ tank_id := s.tank_id, event_type := "light_on",
                  trigger_source := "scheduled" }] } := by
    apply foldl_tickStep_no_action
    intro t ht
    obtain ⟨m, hm, rfl⟩ := List.mem_map.mp ht
    have hm' : on_m + 1 ≤ m ∧ m < off_m := by
      have := List.mem_range'_1.mp hm
      omega
    apply tick_skip_inside_done
    · exact h_en
    · exact h_ov
    · show insideWindow s.light_on s.light_off
        (timeOfDay (d * secondsPerDay + 60 * m)) = true
      rw [timeOfDay_tick d m (by omega), hLon, hLoff]
      exact insideWindow_true_inside on_m off_m m hlt (by omega) hm'.2
    · show checkedToday (some (d * secondsPerDay + 60 * on_m))
        (d * secondsPerDay + 60 * m) = true
      exact checkedToday_same_day _ _
        (by rw [dayOf_tick d on_m (by omega), dayOf_tick d m (by omega)])
  rw [hC]
  have hfire2 : tickStep name
      { settings := { s with
          last_schedule_check_off := none
          last_schedule_check_on := some (d * secondsPerDay + 60 * on_m) }
        issued := [("light_on", "system")]
        log := [{ tank_id := s.tank_id, event_type := "light_on",
                  trigger_source := "scheduled" }] }
      (d * secondsPerDay + 60 * off_m) =
      { settings := { s with
          last_schedule_check_on := some (d * secondsPerDay + 60 * on_m)
          last_schedule_check_off := some (d * secondsPerDay + 60 * off_m) }
        issued := [("light_on", "system"), ("light_off", "system")]
        log := [{ tank_id := s.tank_id, event_type := "light_on",
                  trigger_source := "scheduled" },
                { tank_id := s.tank_id, event_type := "light_off",
                  trigger_source := "scheduled" }] } := by
    unfold tickStep
    rw [tick_fire_off name
      { s with
        last_schedule_check_off := none
        last_schedule_check_on := some (d * secondsPerDay + 60 * on_m) }
      (d * secondsPerDay + 60 * off_m) h_en h_ov
      (by show insideWindow s.light_on s.light_off
            (timeOfDay (d * secondsPerDay + 60 * off_m)) = false
          rw [timeOfDay_tick d off_m (by omega), hLon, hLoff]
          exact insideWindow_false_after on_m off_m off_m hlt (le_refl _))
      (by show checkedToday (some (d * secondsPerDay + 60 * on_m))
            (d * secondsPerDay + 60 * off_m) = true
          exact checkedToday_same_day _ _
            (by rw [dayOf_tick d on_m (by omega), dayOf_tick d off_m (by omega)]))
      (by show checkedToday none (d * secondsPerDay + 60 * off_m) = false
          rfl)]
    simp
  rw [hfire2]
  have hEdone : ((List.range' (off_m + 1) (1439 - off_m)).map
        (fun m => d * secondsPerDay + 60 * m)).foldl (tickStep name)
      { settings := { s with
          last_schedule_check_on := some (d * secondsPerDay + 60 * on_m)
          last_schedule_check_off := some (d * secondsPerDay + 60 * off_m) }
        issued := [("light_on", "system"), ("light_off", "system")]
        log := [{ tank_id := s.tank_id, event_type := "light_on",
                  trigger_source := "scheduled" },
                { tank_id := s.tank_id, event_type := "light_off",
                  trigger_source := "scheduled" }] } =
      { settings := { s with
          last_schedule_check_on := some (d * secondsPerDay + 60 * on_m)
          last_schedule_check_off := some (d * secondsPerDay + 60 * off_m) }
        issued := [("light_on", "system"), ("light_off", "system")]
        log := [{ tank_id := s.tank_id, event_type := "light_on",
                  trigger_source := "scheduled" },
                { tank_id := s.tank_id, event_type := "light_off",
                  trigger_source := "scheduled" }] } := by
    apply foldl_tickStep_no_action
    intro t ht
    obtain ⟨m, hm, rfl⟩ := List.mem_map.mp ht
    have hm' : off_m + 1 ≤ m ∧ m < 1440 := by
      have := List.mem_range'_1.mp hm
      omega
    apply tick_skip_outside_done
    · exact h_en
    · exact h_ov
    · show insideWindow s.light_on s.light_off
        (timeOfDay (d * secondsPerDay + 60 * m)) = false
      rw [timeOfDay_tick d m (by omega), hLon, hLoff]
      exact insideWindow_false_after on_m off_m m hlt (by omega)
    · show checkedToday (some (d * secondsPerDay + 60 * on_m))
        (d * secondsPerDay + 60 * m) = true
      exact checkedToday_same_day _ _
        (by rw [dayOf_tick d on_m (by omega), dayOf_tick d m (by omega)])
    · show checkedToday (some (d * secondsPerDay + 60 * off_m))
        (d * secondsPerDay + 60 * m) = true
      exact checkedToday_same_day _ _
        (by rw [dayOf_tick d off_m (by omega), dayOf_tick d m (by omega)])
  rw [hEdone]

/-! ## C4 -/

/-- C4 counterexample: over a full simulated day with the stable enabled
default window 10:00–16:00 the engine issues exactly one `light_on` and one
`light_off`, but every `issue_command` call is made with the default
`source="system"` — no issued command carries `source="scheduled"`,
contradicting the claim's tagging. -/
theorem c4_commands_not_tagged_scheduled :
    (runTicks "T" s0 (minuteTicksOfDay 0)).issued =
      [("light_on", "system"), ("light_off", "system")] ∧
    ((runTicks "T" s0 (minuteTicksOfDay 0)).issued.all
      (fun p => p.2 != "scheduled")) = true := by
  have H := dayRun_stable_window "T" s0 0 600 960 rfl rfl rfl rfl
    (by omega) (by omega) rfl
  rw [H]
  exact ⟨rfl, rfl⟩

/-- C4 (amended): under a stable enabled window (one-minute ticks over a
full day, markers not yet stamped for that day, no override) the engine
issues exactly one `light_on` and one `light_off` command — issued through
`issue_command` with its default `source="system"` — and writes exactly one
`light_on` and one `light_off` schedule-log row tagged
`trigger_source="scheduled"`; the daily markers guarantee at most one fire
per edge per day, and any ON fire stamps `last_schedule_check_on := now` and
clears `last_schedule_check_off`. -/
theorem c4_schedule_fires_once_per_day (name : String) (s : TankSettings)
    (d on_m off_m : Nat)
    (h_en : s.is_schedule_enabled = true)
    (h_ov : s.manual_override_state = none)
    (hLon : s.light_on = 60 * on_m)
    (hLoff : s.light_off = 60 * off_m)
    (hlt : on_m < off_m) (hhi : off_m < 1440)
    (h_on : checkedToday s.last_schedule_check_on (d * secondsPerDay) = false) :
    runTicks name s (minuteTicksOfDay d) =
      { settings := { s with
          last_schedule_check_on := some (d * secondsPerDay + 60 * on_m)
          last_schedule_check_off := some (d * secondsPerDay + 60 * off_m) }
        issued := [("light_on", "system"), ("light_off", "system")]
        log := [{ tank_id := s.tank_id, event_type := "light_on",
                  trigger_source := "scheduled" },
                { tank_id := s.tank_id, event_type := "light_off",
                  trigger_source := "scheduled" }] } ∧
    (∀ (s' : TankSettings) (now' : Nat),
      s'.is_schedule_enabled = true →
      s'.manual_override_state = none →
      insideWindow s'.light_on s'.light_off (timeOfDay now') = true →
      checkedToday s'.last_schedule_check_on now' = false →
      (enforce_lighting_schedule_for_tank name s' now').issued =
        [("light_on", "system")] ∧
      (enforce_lighting_schedule_for_tank name s' now').settings.last_schedule_check_on =
        some now' ∧
      (enforce_lighting_schedule_for_tank name s' now').settings.last_schedule_check_off =
        none ∧
      (enforce_lighting_schedule_for_tank name s' now').log =
        [{ tank_id := s'.tank_id, event_type := "light_on",
           trigger_source := "scheduled" }]) := by
  refine ⟨dayRun_stable_window name s d on_m off_m h_en h_ov hLon hLoff
    hlt hhi h_on, ?_⟩
  intro s' now' he ho hi hc
  rw [tick_fire_on name s' now' he ho hi hc]
  exact ⟨rfl, rfl, rfl, rfl⟩

/-- C4 witness: the amended day-run behaviour at the concrete default
window (10:00–16:00, day 0). -/
theorem c4_witness :
    runTicks "T" s0 (minuteTicksOfDay 0) =
      { settings := { s0 with
          last_schedule_check_on := some 36000
          last_schedule_check_off := some 57600 }
        issued := [("light_on", "system"), ("light_off", "system")]
        log := [{ tank_id := 1, event_type := "light_on",
                  trigger_source := "scheduled" },
                { tank_id := 1, event_type := "light_off",
                  trigger_source := "scheduled" }] } :=
  (c4_schedule_fires_once_per_day "T" s0 0 600 960 rfl rfl rfl rfl
    (by omega) (by omega) rfl).1

/-! ## C5 -/

/-- C5 (code bug): the enforcement engine never reads
`schedule_paused_until`.  With the pause marker set to the next day's 10:00
(timestamp 122400) by a manual light-off override, the 16:00 tick (57600 <
122400) still issues an automatic `light_off`, and — when no ON marker is
stamped for the day — the 11:01 tick (39660 < 122400) even issues an
automatic `light_on` that cancels the manual light-off, instead of skipping
the device while the pause is active. -/
theorem c5_engine_ignores_pause :
    s5.schedule_paused_until = some 122400 ∧
    (57600 : Nat) < 122400 ∧
    (enforce_lighting_schedule_for_tank "T" s5 57600).issued =
      [("light_off", "system")] ∧
    (39660 : Nat) < 122400 ∧
    (enforce_lighting_schedule_for_tank "T"
        { s5 with last_schedule_check_on := none } 39660).issued =
      [("light_on", "system")] :=
  ⟨rfl, by norm_num, by decide, by norm_num, by decide⟩

end TankCtl
